import Mathlib

/-!
Verification development for `src/generate_sample_data.py`, a synthetic
healthcare-data generator.  The Python program is shallowly embedded:

* The two pseudo-random generators of the program (the `random` module and
  `numpy.random`, each seeded once at import time) are modelled as two
  infinite tapes of rationals together with a read position.  A draw of
  `random.random()` reads the next entry of the `py` tape; the entries of a
  well-formed tape lie in `[0, 1)` (`ValidTape`).  A draw of
  `numpy.random.normal(m, s)` reads the next entry `z` of the `np` tape and
  returns `m + s * z`; `z` stands for the standard-normal variate, so it is
  not range-restricted.  a weighted `pandas.DataFrame.sample` also runs on
  the numpy generator and is modelled as inverse-CDF selection from one
  `np`-tape entry.
* Python floats are modelled as rationals; `round(x, 2)` becomes `round2`.
  (Python rounds floats half-to-even; none of the properties proved here sit
  on a half-way boundary, so the idealisation is harmless and is noted where
  rounding matters at all.)
* `datetime` values are modelled as rationals counting days since
  1970-01-01, the integer part being the day and the fractional part the
  time of day.  A `date` (midnight) is an integer.  The Gregorian calendar
  enters only through the month arithmetic of `generate_budget_data`; it is
  embedded by `firstDay` (month index -> day number of the first of the
  month) and `monthOfDay` (day number -> month index), the standard civil
  calendar formulas.  A month index is `12 * year + (month - 1)`.
* Fallible operations (`random.randrange` on an empty range, `random.choice`
  on an empty list, sampling with an all-zero weight vector, `.iloc[0]` on
  an empty selection) return `Option`.
* The program calls `datetime.now()` repeatedly; within one run the calls
  are seconds apart.  The embedding freezes the clock, passing a single
  `now` timestamp to every stage, which is what the notion in the specification
  of "generation time" denotes.
-/

set_option maxRecDepth 10000

/-- The state of the two pseudo-random generators: the `random`-module tape
`py` and the numpy tape `np`, with their read positions. -/
structure Tapes where
  py : Nat → ℚ
  pyi : Nat
  np : Nat → ℚ
  npi : Nat

/-- A well-formed unit tape: every entry lies in `[0, 1)`, as the values of
`random.random()` do. -/
def ValidTape (f : Nat → ℚ) : Prop := ∀ n, 0 ≤ f n ∧ f n < 1

/-- Read the next `random`-module unit draw. -/
def pyNext (g : Tapes) : ℚ × Tapes := (g.py g.pyi, { g with pyi := g.pyi + 1 })

/-- Read the next numpy draw. -/
def npNext (g : Tapes) : ℚ × Tapes := (g.np g.npi, { g with npi := g.npi + 1 })

/-- Model of `random.random()`. -/
def randUnit (g : Tapes) : ℚ × Tapes := pyNext g

/-- Model of `random.uniform(a, b) = a + (b - a) * random.random()` (the
exact CPython formula). -/
def uniformQ (a b : ℚ) (g : Tapes) : ℚ × Tapes :=
  let p := pyNext g
  (a + (b - a) * p.1, p.2)

/-- Index selected by a unit draw `u` among `n` items: `⌊u * n⌋`, clamped
into range (the clamp is the identity for a valid draw). -/
def unitIndex (u : ℚ) (n : Nat) : Nat := min (⌊u * (n : ℚ)⌋).toNat (n - 1)

/-- Model of `random.randrange(n)`: raises `ValueError` when `n ≤ 0`, otherwise a
uniform integer in `[0, n)`. -/
def randrangeO (n : ℤ) (g : Tapes) : Option (ℤ × Tapes) :=
  if n ≤ 0 then none
  else
    let p := pyNext g
    some (max 0 (min ⌊p.1 * (n : ℚ)⌋ (n - 1)), p.2)

/-- Model of `random.randint(a, b)` for the constant bounds `a ≤ b` used by the
source: a uniform integer in `[a, b]`. -/
def randintT (a b : ℤ) (g : Tapes) : ℤ × Tapes :=
  let p := pyNext g
  (a + max 0 (min ⌊p.1 * ((b - a + 1 : ℤ) : ℚ)⌋ (b - a)), p.2)

/-- Model of `random.choice(xs)` on a list: fails on an empty list. -/
def choiceL {α : Type} (xs : List α) (g : Tapes) : Option (α × Tapes) :=
  match xs with
  | [] => none
  | y :: ys =>
    let p := pyNext g
    some ((y :: ys).get ⟨unitIndex p.1 (y :: ys).length, by
      have hm : unitIndex p.1 (y :: ys).length ≤ (y :: ys).length - 1 :=
        Nat.min_le_right _ _
      simp only [List.length_cons] at hm ⊢
      omega⟩, p.2)

/-- Model of `random.choice(range(lo, hi))` (used for street numbers). -/
def choiceRange (lo hi : ℤ) (g : Tapes) : ℤ × Tapes :=
  let p := pyNext g
  (lo + max 0 (min ⌊p.1 * ((hi - lo : ℤ) : ℚ)⌋ (hi - lo - 1)), p.2)

/-- Index of the first cumulative weight exceeding `x` (with the last index
as fallback), the inverse-CDF selection rule of `random.choices` and of
weighted `DataFrame.sample`. -/
def weightedIdx : List ℚ → ℚ → Nat
  | [], _ => 0
  | _ :: [], _ => 0
  | w :: ws, x => if x < w then 0 else weightedIdx ws (x - w) + 1

/-- One pick of `random.choices(xs, weights := ws)` on string data; fails
when the weights sum to zero or less (as `random.choices` does). -/
def choicesWStr (xs : List String) (ws : List ℚ) (g : Tapes) :
    Option (String × Tapes) :=
  if ws.sum ≤ 0 then none
  else
    let p := pyNext g
    some (xs.getD (weightedIdx ws (p.1 * ws.sum)) "", p.2)

/-- Model of `numpy.random.normal(mean, sd)`: the tape entry is the standard-normal
variate. -/
def npNormal (mean sd : ℚ) (g : Tapes) : ℚ × Tapes :=
  let p := npNext g
  (mean + sd * p.1, p.2)

/-- Model of the weighted one-row `members_df.sample` (pandas, on the numpy
generator): inverse-CDF selection proportional to `ws`; pandas raises when
the weights sum to zero. -/
def sampleWeighted {α : Type} (xs : List α) (ws : List ℚ) (g : Tapes) :
    Option (α × Tapes) :=
  match xs with
  | [] => none
  | y :: ys =>
    if ws.sum ≤ 0 then none
    else
      let p := npNext g
      some ((y :: ys).get ⟨min (weightedIdx ws (p.1 * ws.sum))
          ((y :: ys).length - 1), by
        have hm : min (weightedIdx ws (p.1 * ws.sum)) ((y :: ys).length - 1) ≤
            (y :: ys).length - 1 := Nat.min_le_right _ _
        simp only [List.length_cons] at hm ⊢
        omega⟩, p.2)

/-- Python `int()`: truncation toward zero. -/
def pyInt (q : ℚ) : ℤ := if q < 0 then ⌈q⌉ else ⌊q⌋

/-- Python `round(x, 2)` on the rational model. -/
def round2 (q : ℚ) : ℚ := ((round (100 * q) : ℤ) : ℚ) / 100

/-- Day number (days since 1970-01-01) of the first day of the month with
absolute index `μ = 12 * year + (month - 1)` — the standard civil-calendar
formula (March-based year split). -/
def firstDay (μ : ℤ) : ℤ :=
  let s := μ - 2
  let y := s / 12
  let mp := s % 12
  365 * y + y / 4 - y / 100 + y / 400 + (153 * mp + 2) / 5 - 719468

/-- Day number of the last day of month `μ`. -/
def lastDay (μ : ℤ) : ℤ := firstDay (μ + 1) - 1

/-- Month index containing day number `z` (standard civil-from-days
formula). -/
def monthOfDay (z : ℤ) : ℤ :=
  let z2 := z + 719468
  let era := z2 / 146097
  let doe := z2 % 146097
  let yoe := (doe - doe / 1460 + doe / 36524 - doe / 146096) / 365
  let y := yoe + era * 400
  let doy := doe - (365 * yoe + yoe / 4 - yoe / 100)
  let mp := (5 * doy + 2) / 153
  12 * y + mp + 2

/-- Fractional (time-of-day) part of a timestamp. -/
def fracOf (t : ℚ) : ℚ := t - (⌊t⌋ : ℚ)

/-- Model of `generate_date_range(start, end)`: a uniform whole number of days added
to `start`, the count drawn from `randrange((end - start).days)`;
`timedelta.days` floors, and `randrange` fails when the count is not
positive. -/
def generate_date_range (start_date end_date : ℚ) (g : Tapes) :
    Option (ℚ × Tapes) :=
  let days_between : ℤ := ⌊end_date - start_date⌋
  match randrangeO days_between g with
  | none => none
  | some (r, g1) => some (start_date + (r : ℚ), g1)

/-! ## Configuration constants and seed lists (lines 20-116 of the source) -/

def MONTHS_OF_DATA : Nat := 24

def FIRST_NAMES : List String :=
  ["James", "Mary", "John", "Patricia", "Robert", "Jennifer", "Michael",
   "Linda", "William", "Elizabeth", "David", "Barbara", "Richard", "Susan",
   "Joseph", "Jessica", "Thomas", "Sarah", "Charles", "Karen", "Christopher",
   "Nancy", "Daniel", "Lisa", "Matthew", "Betty", "Anthony", "Dorothy",
   "Donald", "Sandra", "Mark", "Ashley", "Paul", "Kimberly", "Steven",
   "Donna", "Andrew", "Emily", "Kenneth", "Michelle", "Joshua", "Carol",
   "Kevin", "Amanda", "Brian", "Melissa", "George", "Deborah"]

def LAST_NAMES : List String :=
  ["Smith", "Johnson", "Williams", "Brown", "Jones", "Garcia", "Miller",
   "Davis", "Rodriguez", "Martinez", "Hernandez", "Lopez", "Gonzalez",
   "Wilson", "Anderson", "Thomas", "Taylor", "Moore", "Jackson", "Martin",
   "Lee", "Perez", "Thompson", "White", "Harris", "Sanchez", "Clark",
   "Ramirez", "Lewis", "Robinson", "Walker", "Young", "Allen", "King",
   "Wright", "Scott", "Torres", "Nguyen", "Hill"]

def CITIES : List (String × String × String) :=
  [("New York", "NY", "10001"), ("Los Angeles", "CA", "90001"),
   ("Chicago", "IL", "60601"), ("Houston", "TX", "77001"),
   ("Phoenix", "AZ", "85001"), ("Philadelphia", "PA", "19101"),
   ("San Antonio", "TX", "78201"), ("San Diego", "CA", "92101"),
   ("Dallas", "TX", "75201"), ("San Jose", "CA", "95101"),
   ("Austin", "TX", "78701"), ("Jacksonville", "FL", "32099"),
   ("Fort Worth", "TX", "76101"), ("Columbus", "OH", "43201"),
   ("Charlotte", "NC", "28201"), ("San Francisco", "CA", "94101"),
   ("Indianapolis", "IN", "46201"), ("Seattle", "WA", "98101"),
   ("Denver", "CO", "80201"), ("Boston", "MA", "02101"),
   ("Portland", "OR", "97201"), ("Miami", "FL", "33101"),
   ("Atlanta", "GA", "30301"), ("Minneapolis", "MN", "55401")]

def SERVICE_TYPES : List String :=
  ["Professional", "Outpatient", "Inpatient", "Emergency", "Pharmacy",
   "Lab", "Radiology", "Surgery", "Therapy", "Preventive", "Specialty",
   "Mental Health", "Dental", "Vision", "DME", "Home Health"]

def ICD10_CODES : List (String × String × String) :=
  [("E11.9", "Type 2 diabetes mellitus without complications", "Diabetes"),
   ("I10", "Essential (primary) hypertension", "High blood pressure"),
   ("E78.5", "Hyperlipidemia, unspecified", "High cholesterol"),
   ("K21.9", "Gastro-esophageal reflux disease without esophagitis", "GERD"),
   ("F41.9", "Anxiety disorder, unspecified", "Anxiety"),
   ("M79.3", "Myalgia", "Muscle pain"),
   ("J44.0", "COPD with acute lower respiratory infection", "COPD"),
   ("N39.0", "Urinary tract infection", "UTI"),
   ("E66.9", "Obesity, unspecified", "Obesity"),
   ("G43.909", "Migraine, unspecified", "Migraine"),
   ("M54.5", "Low back pain", "Back pain"),
   ("J06.9", "Acute upper respiratory infection", "Common cold"),
   ("B34.2", "Coronavirus infection", "COVID-19"),
   ("Z23", "Encounter for immunization", "Vaccination"),
   ("Z00.00", "General adult medical examination", "Check-up"),
   ("I25.10", "Atherosclerotic heart disease", "Heart disease"),
   ("E03.9", "Hypothyroidism, unspecified", "Hypothyroidism"),
   ("J45.909", "Unspecified asthma", "Asthma"),
   ("F32.9", "Major depressive disorder", "Depression"),
   ("M17.9", "Osteoarthritis of knee", "Knee arthritis")]

def DRUG_NAMES : List (String × String × ℚ × ℚ) :=
  [("Lisinopril", "Blood pressure", 30, 150),
   ("Metformin", "Diabetes", 25, 100),
   ("Atorvastatin", "Cholesterol", 35, 180),
   ("Omeprazole", "GERD", 40, 200),
   ("Amlodipine", "Blood pressure", 30, 140),
   ("Simvastatin", "Cholesterol", 25, 120),
   ("Losartan", "Blood pressure", 35, 160),
   ("Albuterol", "Asthma", 45, 250),
   ("Gabapentin", "Pain", 30, 180),
   ("Hydrochlorothiazide", "Blood pressure", 20, 80),
   ("Sertraline", "Depression", 40, 200),
   ("Levothyroxine", "Thyroid", 25, 100),
   ("Azithromycin", "Antibiotic", 50, 150),
   ("Amoxicillin", "Antibiotic", 20, 60),
   ("Prednisone", "Inflammation", 15, 50),
   ("Insulin Glargine", "Diabetes", 250, 1200),
   ("Adalimumab", "Autoimmune", 5000, 8000),
   ("Apixaban", "Blood thinner", 400, 600)]

def EMAIL_DOMAINS : List String :=
  ["gmail.com", "yahoo.com", "outlook.com", "email.com", "mail.com"]

def STREET_NAMES : List String :=
  ["Main", "Oak", "Maple", "First", "Second", "Third", "Park", "Pine",
   "Elm", "Washington", "Lake", "Hill", "Forest", "River", "Sunset"]

def STREET_TYPES : List String :=
  ["St", "Ave", "Rd", "Blvd", "Dr", "Ln", "Way", "Ct"]

/-- Day number of `datetime(2020, 1, 1)`. -/
def day2020 : ℤ := firstDay (2020 * 12)

/-- Day number of `datetime(2023, 6, 1)`. -/
def day20230601 : ℤ := firstDay (2023 * 12 + 5)

/-! ## Generated-row types (one structure per output table row) -/

/-- A row of `service_types_df`. -/
structure ServiceTypeRow where
  service_type_id : Nat
  service_type : String
  category : String
  requires_auth : Bool
  typical_cost_min : ℚ
  typical_cost_max : ℚ
deriving DecidableEq, Inhabited

/-- A row of `icd10_df`. -/
structure Icd10Row where
  icd10_code : String
  medical_description : String
  laymans_term : String
  diagnosis_category : String
  hcc_code : Option ℤ
  risk_weight : ℚ
deriving DecidableEq, Inhabited

/-- A row of `plan_types_df`. -/
structure PlanTypeRow where
  plan_type_id : ℤ
  plan_name : String
  plan_code : String
  deductible : ℚ
  oop_max : ℚ
  coinsurance : ℚ
  premium_employee : ℚ
  premium_employer : ℚ
deriving DecidableEq, Inhabited

/-- A row of `employer_df`; `effective_date` is the day number of the
pandas month-end date. -/
structure EmployerRow where
  employer_group_id : ℤ
  company_name : String
  industry : String
  size : String
  effective_date : ℤ
  status : String
deriving DecidableEq, Inhabited

/-- A row of `providers_df`; `provider_id` keeps the numeric part of
`"PRV....."`, `provider_name` its three drawn components. -/
structure Provider where
  provider_id : Nat
  provider_name : String × String × String
  provider_type : String
  specialty : String
  address : ℤ × String × String
  city : String
  state : String
  zip : String
  phone : ℤ × ℤ × ℤ
  in_network : Bool
  quality_rating : ℚ
  avg_cost_index : ℚ
deriving DecidableEq, Inhabited

/-- A row of `members_df`.  Dates (`dob`, `enrollment_date`,
`termination_date`, `created_at`) are day numbers as written by
`strftime`; `updated_at` keeps the full `datetime.now()` timestamp.
`email` keeps the name parts and drawn domain of the formatted address,
`phone` and `address` their drawn components. -/
structure Member where
  member_id : Nat
  claimant_number : Nat
  first_name : String
  last_name : String
  dob : ℤ
  age : ℤ
  gender : String
  email : String × String × String
  phone : ℤ × ℤ × ℤ
  address : ℤ × String × String
  city : String
  state : String
  zip : String
  employer_group_id : ℤ
  plan_type_id : ℤ
  enrollment_date : ℤ
  termination_date : Option ℤ
  member_type : String
  dependent_count : ℤ
  risk_score : ℚ
  chronic_conditions : ℤ
  status : String
  created_at : ℤ
  updated_at : ℚ
deriving DecidableEq, Inhabited

/-- A row of `claims_df`.  `claim_id` keeps the numeric part of
`"CLM......."`; `claimant_number2` is the duplicated `"Claimant Number"`
column added after the loop; money fields are the stored 2-decimal
roundings; `service_date`, `paid_date` and `created_at` are day numbers. -/
structure Claim where
  claim_id : Nat
  claimant_number : Nat
  member_id : Nat
  service_date : ℤ
  service_type : String
  provider_id : Nat
  icd10_code : String
  medical_description : String
  laymans_term : String
  medical : ℚ
  rx : ℚ
  total : ℚ
  domestic_flag : Bool
  plan_type_id : ℤ
  diagnosis_category : String
  hcc_code : Option ℤ
  risk_score : ℚ
  paid_date : Option ℤ
  status : String
  created_at : ℤ
  updated_at : ℚ
  claimant_number2 : Nat
deriving DecidableEq, Inhabited

/-- A row of `budget_df`; `month` keeps the month index behind the
`"%b %Y"` string, `created_at` the month-end timestamp. -/
structure BudgetRow where
  month : ℤ
  budget : ℚ
  medical_claims : ℚ
  rx_claims : ℚ
  inpatient : ℚ
  outpatient : ℚ
  professional : ℚ
  emergency : ℚ
  admin_fees : ℚ
  stop_loss_premium : ℚ
  stop_loss_reimb : ℚ
  rx_rebates : ℚ
  wellness_programs : ℚ
  domestic_claims : ℚ
  non_domestic_claims : ℚ
  employee_count : Nat
  dependent_count : Nat
  retiree_count : Nat
  total_enrollment : Nat
  loss_ratio : ℚ
  net_cost : ℚ
  variance : ℚ
  variance_percent : ℚ
  created_at : ℚ
  updated_at : ℚ
deriving DecidableEq, Inhabited

/-! ## Loop combinators (the `for i in range(n)` accumulation loops) -/

/-- State-threading map for loops without failure points. -/
def mapState {α β : Type} (f : α → Tapes → β × Tapes) :
    List α → Tapes → List β × Tapes
  | [], g => ([], g)
  | a :: as, g =>
    let p := f a g
    let q := mapState f as p.2
    (p.1 :: q.1, q.2)

/-- State-threading map for loops whose body can raise. -/
def mapStateO {α β : Type} (f : α → Tapes → Option (β × Tapes)) :
    List α → Tapes → Option (List β × Tapes)
  | [], g => some ([], g)
  | a :: as, g =>
    Option.bind (f a g) fun p =>
    Option.bind (mapStateO f as p.2) fun q =>
    some (p.1 :: q.1, q.2)

/-! ## `generate_reference_data` (lines 145-199) -/

/-- Model of `plan_types_df`: fully constant. -/
def PLAN_TYPES_TABLE : List PlanTypeRow :=
  [{ plan_type_id := 1, plan_name := "PPO Premium", plan_code := "PPO-P",
     deductible := 500, oop_max := 3000, coinsurance := 1/10,
     premium_employee := 200, premium_employer := 600 },
   { plan_type_id := 2, plan_name := "PPO Standard", plan_code := "PPO-S",
     deductible := 1000, oop_max := 5000, coinsurance := 1/5,
     premium_employee := 150, premium_employer := 450 },
   { plan_type_id := 3, plan_name := "HMO Gold", plan_code := "HMO-G",
     deductible := 0, oop_max := 2000, coinsurance := 0,
     premium_employee := 175, premium_employer := 525 },
   { plan_type_id := 4, plan_name := "HMO Silver", plan_code := "HMO-S",
     deductible := 250, oop_max := 3500, coinsurance := 1/10,
     premium_employee := 125, premium_employer := 375 },
   { plan_type_id := 5, plan_name := "HMO Bronze", plan_code := "HMO-B",
     deductible := 500, oop_max := 5000, coinsurance := 1/5,
     premium_employee := 100, premium_employer := 300 },
   { plan_type_id := 6, plan_name := "HDHP with HSA", plan_code := "HDHP",
     deductible := 2000, oop_max := 6000, coinsurance := 3/10,
     premium_employee := 75, premium_employer := 225 },
   { plan_type_id := 7, plan_name := "EPO Select", plan_code := "EPO",
     deductible := 750, oop_max := 4000, coinsurance := 3/20,
     premium_employee := 140, premium_employer := 420 },
   { plan_type_id := 8, plan_name := "POS Plus", plan_code := "POS",
     deductible := 500, oop_max := 4500, coinsurance := 1/5,
     premium_employee := 160, premium_employer := 480 },
   { plan_type_id := 9, plan_name := "Medicare Advantage", plan_code := "MA",
     deductible := 0, oop_max := 3000, coinsurance := 1/5,
     premium_employee := 0, premium_employer := 0 },
   { plan_type_id := 10, plan_name := "Medicaid Managed", plan_code := "MM",
     deductible := 0, oop_max := 1000, coinsurance := 0,
     premium_employee := 0, premium_employer := 0 }]

/-- One member record, with draws in source order: names and city; the
numpy-normal age; enrollment via `generate_date_range(2020-01-01,
2023-06-01)`; the 80% active coin; the termination offset
`randint(90, 730)` only for inactive members; the member-type coin only
under age 65; the risk multiplier `uniform(0.5, 2.0)`; then, inside the
dict literal, gender, email domain, phone, address, employer id and plan id
picks and the conditional dependent/chronic `randint`s. -/
def genMemberRow (now : ℚ) (employers : List EmployerRow)
    (plans : List PlanTypeRow) (i : Nat) (g : Tapes) :
    Option (Member × Tapes) :=
  Option.bind (choiceL FIRST_NAMES g) fun fn =>
  Option.bind (choiceL LAST_NAMES fn.2) fun ln2 =>
  Option.bind (choiceL CITIES ln2.2) fun city =>
  let zr := npNormal 45 15 city.2
  let age : ℤ := max 18 (min 85 (pyInt zr.1))
  let dobDay : ℤ := ⌊now - (age : ℚ) * 365⌋
  Option.bind (generate_date_range ((day2020 : ℤ) : ℚ)
    ((day20230601 : ℤ) : ℚ) zr.2) fun enr =>
  let enrollDay : ℤ := ⌊enr.1⌋
  let ia := randUnit enr.2
  let isActive : Bool := decide ((1 : ℚ)/5 < ia.1)
  let pterm : Option ℤ × Tapes :=
    if isActive then (none, ia.2)
    else
      let r := randintT 90 730 ia.2
      (some (enrollDay + r.1), r.2)
  let pmt : String × Tapes :=
    if 65 ≤ age then ("Retiree", pterm.2)
    else
      let u := randUnit pterm.2
      (if (7 : ℚ)/10 < u.1 then "Dependent" else "Employee", u.2)
  let base : ℚ := 1/2 + ((age : ℚ) / 100) * 2
  let ru := uniformQ (1/2) 2 pmt.2
  let risk := round2 (base * ru.1)
  Option.bind (choiceL ["M", "F"] ru.2) fun gen =>
  Option.bind (choiceL EMAIL_DOMAINS gen.2) fun dom =>
  let ph1 := randintT 200 999 dom.2
  let ph2 := randintT 200 999 ph1.2
  let ph3 := randintT 1000 9999 ph2.2
  let anum := choiceRange 100 9999 ph3.2
  Option.bind (choiceL STREET_NAMES anum.2) fun sn =>
  Option.bind (choiceL STREET_TYPES sn.2) fun st2 =>
  Option.bind (choiceL (employers.map (fun e => e.employer_group_id))
    st2.2) fun eg =>
  Option.bind (choiceL (plans.map (fun p => p.plan_type_id)) eg.2) fun pl =>
  let pdep : ℤ × Tapes :=
    if pmt.1 = "Employee" then randintT 0 4 pl.2 else (0, pl.2)
  let pchr : ℤ × Tapes :=
    if (3 : ℚ)/2 < risk then randintT 0 3 pdep.2 else (0, pdep.2)
  some ({ member_id := i + 1
          claimant_number := 100000 + i
          first_name := fn.1
          last_name := ln2.1
          dob := dobDay
          age := age
          gender := gen.1
          email := (fn.1, ln2.1, dom.1)
          phone := (ph1.1, ph2.1, ph3.1)
          address := (anum.1, sn.1, st2.1)
          city := city.1.1
          state := city.1.2.1
          zip := city.1.2.2
          employer_group_id := eg.1
          plan_type_id := pl.1
          enrollment_date := enrollDay
          termination_date := pterm.1
          member_type := pmt.1
          dependent_count := pdep.1
          risk_score := risk
          chronic_conditions := pchr.1
          status := if isActive then "Active" else "Terminated"
          created_at := enrollDay
          updated_at := now : Member }, pchr.2)

/-- Model of `generate_members()`. -/
def generate_members (n : Nat) (employers : List EmployerRow)
    (plans : List PlanTypeRow) (now : ℚ) (g : Tapes) :
    Option (List Member × Tapes) :=
  mapStateO (genMemberRow now employers plans) (List.range n) g

/-! ## `generate_claims` (lines 292-374) -/

/-- The end-of-window bound of a claim (lines 309-311): the
termination date if present, otherwise `datetime.now()`. -/
def enrollmentEnd (m : Member) (now : ℚ) : ℚ :=
  match m.termination_date with
  | some t => (t : ℚ)
  | none => now

/-- Service-date selection for one claim (lines 307-313): a
`generate_date_range` draw over the enrollment window of the member. -/
def claimServiceDate (now : ℚ) (m : Member) (g : Tapes) :
    Option (ℚ × Tapes) :=
  generate_date_range ((m.enrollment_date : ℤ) : ℚ) (enrollmentEnd m now) g

/-- One claim record; `ws` is the risk-score weight vector computed before
the loop (lines 300-301; the source normalises it by its sum, which selects
the same member).  Draw order: weighted member sample (numpy), service
date, service type, the cost block (pharmacy: drug pick and rx cost;
otherwise medical cost, the 5% outlier coin and conditional factor, and a
diagnosis pick), the domestic coin, the weighted status pick, then inside
the dict literal the provider pick, the conditional HCC draw and the
conditional paid-date offset. -/
def genClaimRow (now : ℚ) (members : List Member) (providers : List Provider)
    (stT : List ServiceTypeRow) (ws : List ℚ) (i : Nat) (g : Tapes) :
    Option (Claim × Tapes) :=
  Option.bind (sampleWeighted members ws g) fun mp =>
  let m := mp.1
  Option.bind (claimServiceDate now m mp.2) fun sdp =>
  let sd : ℤ := ⌊sdp.1⌋
  Option.bind (choiceL SERVICE_TYPES sdp.2) fun stp =>
  Option.bind (stT.find? (fun r => r.service_type == stp.1)) fun sinfo =>
  Option.bind (if stp.1 = "Pharmacy" then
      Option.bind (choiceL DRUG_NAMES stp.2) fun dr =>
      let rxp := uniformQ dr.1.2.2.1 dr.1.2.2.2 dr.2
      some (((0 : ℚ), rxp.1, "Z79.899", "Prescription: " ++ dr.1.1,
        dr.1.2.1), rxp.2)
    else
      let mcp := uniformQ sinfo.typical_cost_min sinfo.typical_cost_max stp.2
      let ou := randUnit mcp.2
      let pm : ℚ × Tapes :=
        if ou.1 < 1/20 then
          let f := uniformQ 5 20 ou.2
          (mcp.1 * f.1, f.2)
        else (mcp.1, ou.2)
      Option.bind (choiceL ICD10_CODES pm.2) fun ic =>
      some ((pm.1, (0 : ℚ), ic.1.1, ic.1.2.1, ic.1.2.2), ic.2)) fun cst =>
  let medical_cost : ℚ := cst.1.1
  let rx_cost : ℚ := cst.1.2.1
  let du := randUnit cst.2
  Option.bind (choicesWStr ["Paid", "Pending", "Denied"]
    [17/20, 1/10, 1/20] du.2) fun stt =>
  Option.bind (choiceL (providers.map (fun p => p.provider_id))
    stt.2) fun pv =>
  let hu := randUnit pv.2
  let phcc : Option ℤ × Tapes :=
    if (3 : ℚ)/5 < hu.1 then
      let k := randintT 1 200 hu.2
      (some k.1, k.2)
    else (none, hu.2)
  let ppaid : Option ℤ × Tapes :=
    if stt.1 = "Paid" then
      let d := randintT 15 45 phcc.2
      (some (sd + d.1), d.2)
    else (none, phcc.2)
  some ({ claim_id := 1000000 + i
          claimant_number := m.claimant_number
          member_id := m.member_id
          service_date := sd
          service_type := stp.1
          provider_id := pv.1
          icd10_code := cst.1.2.2.1
          medical_description := cst.1.2.2.2.1
          laymans_term := cst.1.2.2.2.2
          medical := round2 medical_cost
          rx := round2 rx_cost
          total := round2 (medical_cost + rx_cost)
          domestic_flag := decide (du.1 < 17/20)
          plan_type_id := m.plan_type_id
          diagnosis_category :=
            if 0 < m.chronic_conditions then "Chronic" else "Acute"
          hcc_code := phcc.1
          risk_score := m.risk_score
          paid_date := ppaid.1
          status := stt.1
          created_at := sd
          updated_at := now
          claimant_number2 := m.claimant_number : Claim }, ppaid.2)

/-- Model of `generate_claims()` (`icd10_df` is passed in the source but the loop
reads the `ICD10_CODES` constant, so the parameter is unused there too). -/
def generate_claims (n : Nat) (members : List Member)
    (providers : List Provider) (_icdT : List Icd10Row)
    (stT : List ServiceTypeRow) (now : ℚ) (g : Tapes) :
    Option (List Claim × Tapes) :=
  let ws := members.map (fun m => m.risk_score)
  mapStateO (genClaimRow now members providers stT ws) (List.range n) g

/-! ## `generate_budget_data` (lines 376-473)

The source builds the 24 month stamps with
`pd.date_range` from `now - 730 days` with 24 periods at frequency M: the
start is rolled forward to the first month-end on or after it and each
stamp keeps the time of day of the start, so stamp `i` is the last day of month
`monthOfDay(⌊now⌋ - 730) + i` at the time of day of `now`.  `month_start`
(`.replace` with day 1) is the first of that month at the same time of day,
and `month_end` (`+ 32 days`, `.replace` with day 1, `- 1 day`) its last day
at the same time of day (`firstDay_succ_bounds` is why the 32-day hop lands
in the successor month).  The claim and member filters compare these
timestamps against the midnight timestamps parsed from the stored date
strings. -/

/-- Claims whose `service_date` midnight timestamp lies in
`[month_start, month_end]` for month `μ` with time-of-day `τ`. -/
def monthClaims (cs : List Claim) (μ : ℤ) (τ : ℚ) : List Claim :=
  cs.filter (fun c =>
    decide (((firstDay μ : ℤ) : ℚ) + τ ≤ ((c.service_date : ℤ) : ℚ)) &&
    decide (((c.service_date : ℤ) : ℚ) ≤ ((lastDay μ : ℤ) : ℚ) + τ))

/-- Value of `medical_claims` before rounding: the monthly non-pharmacy `Medical`
sum. -/
def medSum (cs : List Claim) (μ : ℤ) (τ : ℚ) : ℚ :=
  (((monthClaims cs μ τ).filter
    (fun c => !(c.service_type == "Pharmacy"))).map (fun c => c.medical)).sum

/-- Value of `rx_claims` before rounding: the monthly pharmacy `Rx` sum. -/
def rxSum (cs : List Claim) (μ : ℤ) (τ : ℚ) : ℚ :=
  (((monthClaims cs μ τ).filter
    (fun c => c.service_type == "Pharmacy")).map (fun c => c.rx)).sum

/-- Per-service-type `Medical` sum of the month. -/
def svcSum (cs : List Claim) (μ : ℤ) (τ : ℚ) (st : String) : ℚ :=
  (((monthClaims cs μ τ).filter
    (fun c => c.service_type == st)).map (fun c => c.medical)).sum

/-- Monthly `Total` sum restricted to one domestic flag. -/
def domSum (cs : List Claim) (μ : ℤ) (τ : ℚ) (b : Bool) : ℚ :=
  (((monthClaims cs μ τ).filter
    (fun c => c.domestic_flag == b)).map (fun c => c.total)).sum

/-- Members active in month `μ`: enrolled on or before `month_end` and not
terminated before `month_start` (lines 412-415). -/
def activeMembers (ms : List Member) (μ : ℤ) (τ : ℚ) : List Member :=
  ms.filter (fun m =>
    decide (((m.enrollment_date : ℤ) : ℚ) ≤ ((lastDay μ : ℤ) : ℚ) + τ) &&
    (match m.termination_date with
     | none => true
     | some t => decide (((firstDay μ : ℤ) : ℚ) + τ ≤ ((t : ℤ) : ℚ))))

/-- Count of active members of one member type. -/
def activeTypeCount (ms : List Member) (μ : ℤ) (τ : ℚ) (ty : String) : Nat :=
  ((activeMembers ms μ τ).filter (fun m => m.member_type == ty)).length

/-- One monthly budget row (the body of the `for month_date in months`
loop), with the five per-month `uniform` draws in source order. -/
def budgetRow (now : ℚ) (cs : List Claim) (ms : List Member) (μ : ℤ)
    (g : Tapes) : BudgetRow × Tapes :=
  let τ := fracOf now
  let mc := medSum cs μ τ
  let rxc := rxSum cs μ τ
  let act := activeMembers ms μ τ
  let tot := act.length
  let pa := uniformQ 25 35 g
  let admin := (tot : ℚ) * pa.1
  let ps := uniformQ 40 50 pa.2
  let slp := (tot : ℚ) * ps.1
  let pw := uniformQ 5 10 ps.2
  let well := (tot : ℚ) * pw.1
  let slr : ℚ := if 500000 < mc then max 0 ((mc - 500000) * (9/10)) else 0
  let pr := uniformQ (3/20) (1/4) pw.2
  let rxreb := rxc * pr.1
  let texp := mc + rxc + admin + slp + well
  let net := texp - (slr + rxreb)
  let pb := uniformQ (19/20) (27/25) pr.2
  let bud := net * pb.1
  let varc := bud - net
  let varp : ℚ := if 0 < bud then varc / bud * 100 else 0
  let prem : ℚ := (tot : ℚ) * 750
  let lr : ℚ := if 0 < prem then (mc + rxc) / prem * 100 else 0
  ({ month := μ
     budget := round2 bud
     medical_claims := round2 mc
     rx_claims := round2 rxc
     inpatient := round2 (svcSum cs μ τ "Inpatient")
     outpatient := round2 (svcSum cs μ τ "Outpatient")
     professional := round2 (svcSum cs μ τ "Professional")
     emergency := round2 (svcSum cs μ τ "Emergency")
     admin_fees := round2 admin
     stop_loss_premium := round2 slp
     stop_loss_reimb := round2 slr
     rx_rebates := round2 rxreb
     wellness_programs := round2 well
     domestic_claims := round2 (domSum cs μ τ true)
     non_domestic_claims := round2 (domSum cs μ τ false)
     employee_count := activeTypeCount ms μ τ "Employee"
     dependent_count := activeTypeCount ms μ τ "Dependent"
     retiree_count := activeTypeCount ms μ τ "Retiree"
     total_enrollment := tot
     loss_ratio := round2 lr
     net_cost := round2 net
     variance := round2 varc
     variance_percent := round2 varp
     created_at := ((lastDay μ : ℤ) : ℚ) + τ
     updated_at := now : BudgetRow }, pb.2)

/-- Model of `generate_budget_data()`: one row per month of the window, the first
month being the one containing `now - 730 days`. -/
def generate_budget_data (monthsN : Nat) (now : ℚ) (cs : List Claim)
    (ms : List Member) (g : Tapes) : List BudgetRow × Tapes :=
  let mu0 := monthOfDay (⌊now⌋ - 730)
  mapState (budgetRow now cs ms)
    ((List.range monthsN).map (fun (i : Nat) => mu0 + (i : ℤ))) g

/-! ## `main` (lines 475-551): the nine output tables -/

/-- The claims list written to `claims_data.csv` (empty if generation
raised). -/
def claimsOf (n : Nat) (members : List Member) (providers : List Provider)
    (icdT : List Icd10Row) (stT : List ServiceTypeRow) (now : ℚ)
    (g : Tapes) : List Claim :=
  (generate_claims n members providers icdT stT now g).elim [] (fun p => p.1)

/-- The member list written to `members.csv` (empty if generation
raised). -/
def membersOf (n : Nat) (employers : List EmployerRow)
    (plans : List PlanTypeRow) (now : ℚ) (g : Tapes) : List Member :=
  (generate_members n employers plans now g).elim [] (fun p => p.1)

/-- The service date of the claim lies inside the enrollment
window `[enrollment_date, termination_date or now]`. -/
def svcInWindow (members : List Member) (now : ℚ) (c : Claim) : Prop :=
  ∃ m, m ∈ members ∧ c.member_id = m.member_id ∧
    m.enrollment_date ≤ c.service_date ∧
    ((c.service_date : ℤ) : ℚ) ≤ enrollmentEnd m now

/-- Status is `Terminated` exactly when a termination date exists, and a
termination date is strictly after enrollment. -/
def memberStatusOk (m : Member) : Prop :=
  (m.status = "Terminated" ↔ m.termination_date ≠ none) ∧
  ∀ t, m.termination_date = some t → m.enrollment_date < t

/-- Dependent count is in `[0, 4]` and zero for non-employees. -/
def depOk (m : Member) : Prop :=
  (0 ≤ m.dependent_count ∧ m.dependent_count ≤ 4) ∧
  (m.member_type ≠ "Employee" → m.dependent_count = 0)

/-- The foreign keys of a member hit existing reference rows. -/
def fkMember (employers : List EmployerRow) (plans : List PlanTypeRow)
    (m : Member) : Prop :=
  (∃ e ∈ employers, e.employer_group_id = m.employer_group_id) ∧
  (∃ p2 ∈ plans, p2.plan_type_id = m.plan_type_id)

/-- The foreign keys of a claim hit existing rows: a provider, and a member
carrying the same claimant number (also duplicated in the second
claimant-number column). -/
def fkClaim (members : List Member) (providers : List Provider)
    (c : Claim) : Prop :=
  (∃ p ∈ providers, p.provider_id = c.provider_id) ∧
  (∃ m ∈ members, m.member_id = c.member_id ∧
    m.claimant_number = c.claimant_number ∧
    c.claimant_number2 = c.claimant_number)

/-- Stored `Total` is the sum of stored `Medical` and `Rx`, and exactly one
of the two is zero, decided by the pharmacy service type. -/
def costOk (c : Claim) : Prop :=
  c.total = c.medical + c.rx ∧
  (c.service_type = "Pharmacy" → c.medical = 0 ∧ c.rx ≠ 0) ∧
  (c.service_type ≠ "Pharmacy" → c.rx = 0 ∧ c.medical ≠ 0)

/-- The all-zero tape (a valid unit tape). -/
def tape0 : Tapes := { py := fun _ => 0, pyi := 0, np := fun _ => 0, npi := 0 }

/-- A one-row employer table for concrete runs. -/
def emp1 : EmployerRow :=
  { employer_group_id := 1, company_name := "Acme Corporation",
    industry := "Technology", size := "Small (1-99)", effective_date := 18292,
    status := "Active" }

/-- A one-row provider table for concrete runs. -/
def prov1 : Provider :=
  { provider_id := 1, provider_name := ("St.", "General", "Hospital"),
    provider_type := "Hospital", specialty := "Primary Care",
    address := (100, "Main", "St"), city := "New York", state := "NY",
    zip := "10001", phone := (200, 200, 1000), in_network := true,
    quality_rating := 4, avg_cost_index := 1 }

/-- A one-row service-type table for concrete runs. -/
def stRow1 : ServiceTypeRow :=
  { service_type_id := 1, service_type := "Professional",
    category := "Medical", requires_auth := false, typical_cost_min := 100,
    typical_cost_max := 2000 }

/-- A hand-written active member (enrolled 2020-01-01) for concrete runs. -/
def mA : Member :=
  { member_id := 1, claimant_number := 100000, first_name := "James",
    last_name := "Smith", dob := 1840, age := 45, gender := "M",
    email := ("James", "Smith", "gmail.com"), phone := (200, 200, 1000),
    address := (100, "Main", "St"), city := "New York", state := "NY",
    zip := "10001", employer_group_id := 1, plan_type_id := 1,
    enrollment_date := 18262, termination_date := none,
    member_type := "Employee", dependent_count := 0, risk_score := 1,
    chronic_conditions := 0, status := "Active", created_at := 18262,
    updated_at := 20500 }

/-- The concrete generation timestamp 2026-01-15 12:00 (day 20468 plus half
a day) used by the budget counterexamples. -/
def nowC : ℚ := (20468 : ℚ) + 1/2

/-- A non-pharmacy claim dated 2024-03-01 (day 19783, the first day of
month index `24290`), inside the 24-month window of a run at `nowC`. -/
def cA : Claim :=
  { claim_id := 1000000, claimant_number := 100000, member_id := 1,
    service_date := 19783, service_type := "Inpatient", provider_id := 1,
    icd10_code := "I10", medical_description := "Essential hypertension",
    laymans_term := "High blood pressure", medical := 100, rx := 0,
    total := 100, domestic_flag := true, plan_type_id := 1,
    diagnosis_category := "Acute", hcc_code := none, risk_score := 1,
    paid_date := none, status := "Paid", created_at := 19783,
    updated_at := 0, claimant_number2 := 100000 }

/-- A mid-month (2024-01-18, day 19740) non-pharmacy claim of 500000.01
dollars, for the stop-loss rounding counterexample. -/
def cB : Claim :=
  { cA with
    service_date := 19740
    medical := 50000001/100
    total := 50000001/100 }

/-- A mid-month non-pharmacy claim of one dollar, for the loss-ratio
rounding counterexample. -/
def cC : Claim :=
  { cA with
    service_date := 19740
    medical := 1
    total := 1 }

/-- Well-formed cost bands in the service-type table (true of the generated
table: every `typical_cost_min` is at least 50). -/
def stOk (stT : List ServiceTypeRow) : Prop :=
  ∀ r ∈ stT, 1 ≤ r.typical_cost_min ∧ r.typical_cost_min ≤ r.typical_cost_max

/-! ## Helper lemmas about the draw primitives -/

/-- Calendar sanity: 1970-01-01 is day 0 of month index `1970 * 12`. -/
theorem firstDay_epoch : firstDay (1970 * 12) = 0 := by decide

/-- Calendar sanity: day 0 lies in month `1970 * 12`, day 31 in the next. -/
theorem monthOfDay_epoch : monthOfDay 0 = 1970 * 12 ∧ monthOfDay 30 = 1970 * 12 ∧
    monthOfDay 31 = 1970 * 12 + 1 := by decide

/-- Month lengths: consecutive month starts are 28 to 31 days apart. -/
theorem firstDay_succ_bounds (μ : ℤ) :
    28 ≤ firstDay (μ + 1) - firstDay μ ∧ firstDay (μ + 1) - firstDay μ ≤ 31 := by
  simp only [firstDay]
  have hμ : μ + 1 - 2 = (μ - 2) + 1 := by ring
  rw [hμ]
  generalize μ - 2 = s
  by_cases h11 : s % 12 = 11
  · have ha : (s + 1) / 12 = s / 12 + 1 := by omega
    have hb : (s + 1) % 12 = 0 := by omega
    rw [ha, hb, h11]
    omega
  · have ha : (s + 1) / 12 = s / 12 := by omega
    have hb : (s + 1) % 12 = s % 12 + 1 := by omega
    rw [ha, hb]
    omega

theorem choiceL_mem {α : Type} {xs : List α} {g : Tapes} {a : α} {g1 : Tapes}
    (h : choiceL xs g = some (a, g1)) : a ∈ xs := by
  match xs with
  | [] => simp [choiceL] at h
  | y :: ys =>
    simp only [choiceL, Option.some.injEq, Prod.mk.injEq] at h
    exact h.1 ▸ List.get_mem _ _ _

theorem choiceL_py {α : Type} {xs : List α} {g : Tapes} {a : α} {g1 : Tapes}
    (h : choiceL xs g = some (a, g1)) : g1.py = g.py ∧ g1.np = g.np := by
  match xs with
  | [] => simp [choiceL] at h
  | y :: ys =>
    simp only [choiceL, Option.some.injEq, Prod.mk.injEq] at h
    rw [← h.2]
    exact ⟨rfl, rfl⟩

theorem sampleWeighted_mem {α : Type} {xs : List α} {ws : List ℚ} {g : Tapes}
    {a : α} {g1 : Tapes} (h : sampleWeighted xs ws g = some (a, g1)) :
    a ∈ xs := by
  match xs with
  | [] => simp [sampleWeighted] at h
  | y :: ys =>
    simp only [sampleWeighted] at h
    split at h
    · exact absurd h (by simp)
    · simp only [Option.some.injEq, Prod.mk.injEq] at h
      exact h.1 ▸ List.get_mem _ _ _

theorem sampleWeighted_py {α : Type} {xs : List α} {ws : List ℚ} {g : Tapes}
    {a : α} {g1 : Tapes} (h : sampleWeighted xs ws g = some (a, g1)) :
    g1.py = g.py ∧ g1.pyi = g.pyi := by
  match xs with
  | [] => simp [sampleWeighted] at h
  | y :: ys =>
    simp only [sampleWeighted] at h
    split at h
    · exact absurd h (by simp)
    · simp only [Option.some.injEq, Prod.mk.injEq] at h
      rw [← h.2]
      exact ⟨rfl, rfl⟩

theorem randrangeO_py {n : ℤ} {g : Tapes} {r : ℤ} {g1 : Tapes}
    (h : randrangeO n g = some (r, g1)) : g1.py = g.py ∧ g1.np = g.np := by
  simp only [randrangeO] at h
  split at h
  · exact absurd h (by simp)
  · simp only [Option.some.injEq, Prod.mk.injEq] at h
    rw [← h.2]
    exact ⟨rfl, rfl⟩

theorem randrangeO_bounds {n : ℤ} {g : Tapes} {r : ℤ} {g1 : Tapes}
    (h : randrangeO n g = some (r, g1)) : 0 ≤ r ∧ r < n := by
  simp only [randrangeO] at h
  split at h
  · exact absurd h (by simp)
  · simp only [Option.some.injEq, Prod.mk.injEq] at h
    rw [← h.1]
    rename_i hn
    omega

theorem randrangeO_some {n : ℤ} {g : Tapes} (hn : 0 < n) :
    randrangeO n g =
      some (max 0 (min ⌊(pyNext g).1 * (n : ℚ)⌋ (n - 1)), (pyNext g).2) := by
  simp [randrangeO, not_le.mpr hn]

theorem choicesWStr_py {xs : List String} {ws : List ℚ} {g : Tapes}
    {s : String} {g1 : Tapes} (h : choicesWStr xs ws g = some (s, g1)) :
    g1.py = g.py ∧ g1.np = g.np := by
  simp only [choicesWStr] at h
  split at h
  · exact absurd h (by simp)
  · simp only [Option.some.injEq, Prod.mk.injEq] at h
    rw [← h.2]
    exact ⟨rfl, rfl⟩

theorem randintT_bounds (a b : ℤ) (g : Tapes) (hab : a ≤ b) :
    a ≤ (randintT a b g).1 ∧ (randintT a b g).1 ≤ b := by
  simp only [randintT]
  omega

theorem uniformQ_bounds (a b : ℚ) (g : Tapes) (hv : ValidTape g.py)
    (hab : a ≤ b) : a ≤ (uniformQ a b g).1 ∧ (uniformQ a b g).1 ≤ b := by
  obtain ⟨h0, h1⟩ := hv g.pyi
  simp only [uniformQ, pyNext]
  constructor
  · nlinarith
  · nlinarith

theorem generate_date_range_bounds {s e : ℚ} {g : Tapes} {d : ℚ} {g1 : Tapes}
    (h : generate_date_range s e g = some (d, g1)) : s ≤ d ∧ d < e := by
  simp only [generate_date_range] at h
  match hr : randrangeO ⌊e - s⌋ g with
  | none => rw [hr] at h; simp at h
  | some (r, g2) =>
    rw [hr] at h
    simp only [Option.some.injEq, Prod.mk.injEq] at h
    obtain ⟨hb0, hb1⟩ := randrangeO_bounds hr
    have hfl : (⌊e - s⌋ : ℚ) ≤ e - s := Int.floor_le _
    have hr1 : (r : ℚ) ≤ (⌊e - s⌋ : ℚ) - 1 := by
      have : r ≤ ⌊e - s⌋ - 1 := by omega
      exact_mod_cast this
    constructor
    · rw [← h.1]
      have : (0 : ℚ) ≤ (r : ℚ) := by exact_mod_cast hb0
      linarith
    · rw [← h.1]
      linarith

theorem generate_date_range_py {s e : ℚ} {g : Tapes} {d : ℚ} {g1 : Tapes}
    (h : generate_date_range s e g = some (d, g1)) :
    g1.py = g.py ∧ g1.np = g.np := by
  simp only [generate_date_range] at h
  match hr : randrangeO ⌊e - s⌋ g with
  | none => rw [hr] at h; simp at h
  | some (r, g2) =>
    rw [hr] at h
    simp only [Option.some.injEq, Prod.mk.injEq] at h
    rw [← h.2]
    exact randrangeO_py hr

theorem generate_date_range_total {s e : ℚ} (g : Tapes) (h : s + 1 ≤ e) :
    (generate_date_range s e g).elim False (fun p => s ≤ p.1 ∧ p.1 < e) := by
  have hdb : 0 < ⌊e - s⌋ := by
    have : (1 : ℚ) ≤ e - s := by linarith
    have := Int.le_floor.mpr (by exact_mod_cast this : ((1 : ℤ) : ℚ) ≤ e - s)
    omega
  have heq : generate_date_range s e g =
      some (s + ((max 0 (min ⌊(pyNext g).1 * ((⌊e - s⌋ : ℤ) : ℚ)⌋
        (⌊e - s⌋ - 1)) : ℤ) : ℚ), (pyNext g).2) := by
    simp [generate_date_range, randrangeO_some hdb]
  rw [heq]
  exact generate_date_range_bounds heq

theorem round2_zero : round2 0 = 0 := by
  simp [round2]

theorem round2_pos {x : ℚ} (h : 1 ≤ x) : 0 < round2 x := by
  have h1 : (100 : ℤ) ≤ round (100 * x) := by
    rw [round_eq]
    refine Int.le_floor.mpr ?_
    push_cast
    linarith
  have h2 : (100 : ℚ) ≤ ((round (100 * x) : ℤ) : ℚ) := by exact_mod_cast h1
  unfold round2
  positivity

/-! ## Loop membership lemmas -/

theorem mapStateO_cons {α β : Type} {f : α → Tapes → Option (β × Tapes)}
    {a : α} {as : List α} {g : Tapes} :
    mapStateO f (a :: as) g = (f a g).bind (fun p =>
      (mapStateO f as p.2).bind (fun q => some (p.1 :: q.1, q.2))) := rfl


theorem mapStateO_mem {α β : Type} {f : α → Tapes → Option (β × Tapes)}
    {l : List α} : ∀ {g : Tapes} {bs : List β} {gend : Tapes},
    mapStateO f l g = some (bs, gend) → ∀ b ∈ bs,
    ∃ a g1 g2, a ∈ l ∧ f a g1 = some (b, g2) := by
  induction l with
  | nil =>
    intro g bs gend h b hb
    simp only [mapStateO, Option.some.injEq, Prod.mk.injEq] at h
    rw [← h.1] at hb
    simp at hb
  | cons a as ih =>
    intro g bs gend h b hb
    rw [mapStateO_cons, Option.bind_eq_some] at h
    obtain ⟨p, hp, h⟩ := h
    rw [Option.bind_eq_some] at h
    obtain ⟨q, hq, heq⟩ := h
    simp only [Option.some.injEq, Prod.mk.injEq] at heq
    rw [← heq.1] at hb
    rcases List.mem_cons.mp hb with hb1 | hb2
    · exact ⟨a, g, p.2, List.mem_cons_self _ _, by rw [hb1, hp, Prod.mk.eta]⟩
    · obtain ⟨a2, g1, g2, ha2, hf⟩ := ih (by rw [hq, Prod.mk.eta]) b hb2
      exact ⟨a2, g1, g2, List.mem_cons_of_mem _ ha2, hf⟩

/-- Loop membership carrying the unit-tape function back to the loop entry
(for validity hypotheses), given that the body never changes it. -/
theorem mapStateO_mem_py {α β : Type} {f : α → Tapes → Option (β × Tapes)}
    (hf : ∀ a g1 b g2, f a g1 = some (b, g2) → g2.py = g1.py)
    {l : List α} : ∀ {g : Tapes} {bs : List β} {gend : Tapes},
    mapStateO f l g = some (bs, gend) → ∀ b ∈ bs,
    ∃ a g1 g2, a ∈ l ∧ f a g1 = some (b, g2) ∧ g1.py = g.py := by
  induction l with
  | nil =>
    intro g bs gend h b hb
    simp only [mapStateO, Option.some.injEq, Prod.mk.injEq] at h
    rw [← h.1] at hb
    simp at hb
  | cons a as ih =>
    intro g bs gend h b hb
    rw [mapStateO_cons, Option.bind_eq_some] at h
    obtain ⟨p, hp, h⟩ := h
    rw [Option.bind_eq_some] at h
    obtain ⟨q, hq, heq⟩ := h
    simp only [Option.some.injEq, Prod.mk.injEq] at heq
    rw [← heq.1] at hb
    rcases List.mem_cons.mp hb with hb1 | hb2
    · exact ⟨a, g, p.2, List.mem_cons_self _ _,
        by rw [hb1, hp, Prod.mk.eta], rfl⟩
    · obtain ⟨a2, g1, g2, ha2, hf2, hpy⟩ :=
        ih (by rw [hq, Prod.mk.eta]) b hb2
      refine ⟨a2, g1, g2, List.mem_cons_of_mem _ ha2, hf2, ?_⟩
      rw [hpy]
      exact hf a g p.1 p.2 (by rw [hp, Prod.mk.eta])

theorem mapState_mem {α β : Type} {f : α → Tapes → β × Tapes}
    {l : List α} : ∀ {g : Tapes}, ∀ b ∈ (mapState f l g).1,
    ∃ a g1, a ∈ l ∧ b = (f a g1).1 := by
  induction l with
  | nil => intro g b hb; simp [mapState] at hb
  | cons a as ih =>
    intro g b hb
    simp only [mapState] at hb
    rcases List.mem_cons.mp hb with hb1 | hb2
    · exact ⟨a, g, List.mem_cons_self _ _, hb1⟩
    · obtain ⟨a2, g1, ha2, hf⟩ := ih _ hb2
      exact ⟨a2, g1, List.mem_cons_of_mem _ ha2, hf⟩

/-! ## Per-row facts about `generate_members` -/

theorem genMemberRow_spec {now : ℚ} {employers : List EmployerRow}
    {plans : List PlanTypeRow} {i : Nat} {g : Tapes} {m : Member} {g1 : Tapes}
    (h : genMemberRow now employers plans i g = some (m, g1)) :
    (m.status = "Terminated" ↔ m.termination_date ≠ none) ∧
    (∀ t, m.termination_date = some t → m.enrollment_date < t) ∧
    (0 ≤ m.dependent_count ∧ m.dependent_count ≤ 4) ∧
    (m.member_type ≠ "Employee" → m.dependent_count = 0) ∧
    (∃ e ∈ employers, e.employer_group_id = m.employer_group_id) ∧
    (∃ p2 ∈ plans, p2.plan_type_id = m.plan_type_id) ∧
    m.member_id = i + 1 ∧ m.claimant_number = 100000 + i := by
  simp only [genMemberRow, Option.bind_eq_some] at h
  obtain ⟨fn, hfn, ln2, hln, city, hcity, enr, henr, gen, hgen, dom, hdom,
    sn, hsn, st2, hst2, eg, heg, pl, hpl, heq⟩ := h
  simp only [Option.some.injEq, Prod.mk.injEq] at heq
  obtain ⟨hm, hg⟩ := heq
  subst hm
  dsimp only
  refine ⟨?_, ?_, ?_, ?_, ?_, ?_, rfl, rfl⟩
  · cases hb : decide ((1 : ℚ)/5 < (randUnit enr.2).1) <;> simp [hb]
  · cases hb : decide ((1 : ℚ)/5 < (randUnit enr.2).1)
    · intro t ht
      simp only [hb, Bool.false_eq_true, if_false, Option.some.injEq] at ht
      have hbnd := randintT_bounds 90 730 (randUnit enr.2).2 (by norm_num)
      omega
    · intro t ht
      simp [hb] at ht
  · repeat' split
    all_goals
      first
      | exact randintT_bounds 0 4 _ (by norm_num)
      | exact ⟨le_refl 0, by norm_num⟩
  · intro hne
    rw [if_neg hne]
  · obtain ⟨e, he, heq2⟩ := List.mem_map.mp (choiceL_mem heg)
    exact ⟨e, he, heq2⟩
  · obtain ⟨p2, hp2, heq2⟩ := List.mem_map.mp (choiceL_mem hpl)
    exact ⟨p2, hp2, heq2⟩

/-! ## Per-row facts about `generate_claims` -/

/-- Well-formed drug cost bands (true of the constant `DRUG_NAMES` list:
every minimum is at least 15). -/
theorem drugOk : ∀ d ∈ DRUG_NAMES, 1 ≤ d.2.2.1 ∧ d.2.2.1 ≤ d.2.2.2 := by
  decide

theorem genClaimRow_py {now : ℚ} {members : List Member}
    {providers : List Provider} {stT : List ServiceTypeRow} {ws : List ℚ}
    {i : Nat} {g : Tapes} {c : Claim} {g1 : Tapes}
    (h : genClaimRow now members providers stT ws i g = some (c, g1)) :
    g1.py = g.py := by
  simp only [genClaimRow, Option.bind_eq_some] at h
  obtain ⟨mp, hmp, sdp, hsdp, stp, hstp, sinfo, hsinfo, cst, hcst,
    stt, hstt, pv, hpv, heq⟩ := h
  simp only [Option.some.injEq, Prod.mk.injEq] at heq
  have h1 : mp.2.py = g.py := (sampleWeighted_py hmp).1
  have h2 : sdp.2.py = mp.2.py := (generate_date_range_py hsdp).1
  have h3 : stp.2.py = sdp.2.py := (choiceL_py hstp).1
  have h4 : cst.2.py = stp.2.py := by
    split at hcst
    · rw [Option.bind_eq_some] at hcst
      obtain ⟨dr, hdr, hcst⟩ := hcst
      simp only [Option.some.injEq] at hcst
      rw [← hcst]
      exact (choiceL_py hdr).1
    · rw [Option.bind_eq_some] at hcst
      obtain ⟨ic, hic, hcst⟩ := hcst
      simp only [Option.some.injEq] at hcst
      rw [← hcst]
      rw [(choiceL_py hic).1]
      split <;> rfl
  have h6 : stt.2.py = cst.2.py := (choicesWStr_py hstt).1
  have h7 : pv.2.py = stt.2.py := (choiceL_py hpv).1
  rw [← heq.2]
  split <;> split <;>
    exact (show pv.2.py = g.py by rw [h7, h6, h4, h3, h2, h1])

theorem genClaimRow_spec {now : ℚ} {members : List Member}
    {providers : List Provider} {stT : List ServiceTypeRow} {ws : List ℚ}
    {i : Nat} {g : Tapes} {c : Claim} {g1 : Tapes}
    (h : genClaimRow now members providers stT ws i g = some (c, g1)) :
    (∃ m, m ∈ members ∧ c.member_id = m.member_id ∧
      c.claimant_number = m.claimant_number ∧
      c.claimant_number2 = m.claimant_number ∧
      m.enrollment_date ≤ c.service_date ∧
      ((c.service_date : ℤ) : ℚ) < enrollmentEnd m now) ∧
    (∃ p, p ∈ providers ∧ p.provider_id = c.provider_id) ∧
    c.total = c.medical + c.rx ∧
    (ValidTape g.py → stOk stT →
      (c.service_type = "Pharmacy" → c.medical = 0 ∧ 0 < c.rx) ∧
      (c.service_type ≠ "Pharmacy" → c.rx = 0 ∧ 0 < c.medical)) := by
  simp only [genClaimRow, Option.bind_eq_some] at h
  obtain ⟨mp, hmp, sdp, hsdp, stp, hstp, sinfo, hsinfo, cst, hcst,
    stt, hstt, pv, hpv, heq⟩ := h
  simp only [Option.some.injEq, Prod.mk.injEq] at heq
  obtain ⟨hc, hg⟩ := heq
  subst hc
  simp only [claimServiceDate] at hsdp
  have hsb := generate_date_range_bounds hsdp
  have hmem := sampleWeighted_mem hmp
  have hpy1 : mp.2.py = g.py := (sampleWeighted_py hmp).1
  have hpy2 : sdp.2.py = mp.2.py := (generate_date_range_py hsdp).1
  have hpy3 : stp.2.py = sdp.2.py := (choiceL_py hstp).1
  have hdate1 : mp.1.enrollment_date ≤ ⌊sdp.1⌋ := Int.le_floor.mpr hsb.1
  have hdate2 : ((⌊sdp.1⌋ : ℤ) : ℚ) < enrollmentEnd mp.1 now :=
    lt_of_le_of_lt (Int.floor_le _) hsb.2
  obtain ⟨p0, hp0, hp0eq⟩ := List.mem_map.mp (choiceL_mem hpv)
  split at hcst
  · rename_i hph
    rw [Option.bind_eq_some] at hcst
    obtain ⟨dr, hdr, hcst⟩ := hcst
    simp only [Option.some.injEq] at hcst
    subst hcst
    dsimp only
    refine ⟨⟨mp.1, hmem, rfl, rfl, rfl, hdate1, hdate2⟩,
      ⟨p0, hp0, hp0eq⟩, ?_, ?_⟩
    · rw [round2_zero, zero_add, zero_add]
    · intro hv _
      have hvdr : ValidTape dr.2.py := by
        rw [(choiceL_py hdr).1, hpy3, hpy2, hpy1]
        exact hv
      have hdr2 := drugOk dr.1 (choiceL_mem hdr)
      have hub := uniformQ_bounds dr.1.2.2.1 dr.1.2.2.2 dr.2 hvdr hdr2.2
      constructor
      · intro _
        exact ⟨round2_zero, round2_pos (le_trans hdr2.1 hub.1)⟩
      · intro hne
        exact absurd hph hne
  · rename_i hph
    rw [Option.bind_eq_some] at hcst
    obtain ⟨ic, hic, hcst⟩ := hcst
    simp only [Option.some.injEq] at hcst
    subst hcst
    dsimp only
    refine ⟨⟨mp.1, hmem, rfl, rfl, rfl, hdate1, hdate2⟩,
      ⟨p0, hp0, hp0eq⟩, ?_, ?_⟩
    · rw [round2_zero, add_zero, add_zero]
    · intro hv hst
      have hvstp : ValidTape stp.2.py := by
        rw [hpy3, hpy2, hpy1]
        exact hv
      have hsinf := hst sinfo (List.mem_of_find?_eq_some hsinfo)
      have hmc := uniformQ_bounds sinfo.typical_cost_min
        sinfo.typical_cost_max stp.2 hvstp hsinf.2
      have hpm : 1 ≤ (if (randUnit (uniformQ sinfo.typical_cost_min
          sinfo.typical_cost_max stp.2).2).1 < 1/20 then
            ((uniformQ sinfo.typical_cost_min sinfo.typical_cost_max
              stp.2).1 * (uniformQ 5 20 (randUnit (uniformQ
              sinfo.typical_cost_min sinfo.typical_cost_max
              stp.2).2).2).1,
             (uniformQ 5 20 (randUnit (uniformQ sinfo.typical_cost_min
               sinfo.typical_cost_max stp.2).2).2).2)
          else ((uniformQ sinfo.typical_cost_min sinfo.typical_cost_max
            stp.2).1, (randUnit (uniformQ sinfo.typical_cost_min
            sinfo.typical_cost_max stp.2).2).2)).1 := by
        split
        · have hf := uniformQ_bounds 5 20 (randUnit (uniformQ
            sinfo.typical_cost_min sinfo.typical_cost_max stp.2).2).2
            (by rw [show (randUnit (uniformQ sinfo.typical_cost_min
              sinfo.typical_cost_max stp.2).2).2.py = stp.2.py from rfl]
                exact hvstp)
            (by norm_num)
          have h1 := le_trans hsinf.1 hmc.1
          have h2 : (1 : ℚ) ≤ (uniformQ 5 20 (randUnit (uniformQ
              sinfo.typical_cost_min sinfo.typical_cost_max
              stp.2).2).2).1 := le_trans (by norm_num) hf.1
          dsimp only
          nlinarith [mul_le_mul h1 h2 zero_le_one (le_trans zero_le_one h1)]
        · exact le_trans hsinf.1 hmc.1
      constructor
      · intro hph2
        exact absurd hph2 hph
      · intro _
        exact ⟨round2_zero, round2_pos hpm⟩

/-! ## Accessor-level bundles -/

theorem membersOf_spec {n : Nat} {employers : List EmployerRow}
    {plans : List PlanTypeRow} {now : ℚ} {g : Tapes} {m : Member}
    (hm : m ∈ membersOf n employers plans now g) :
    (m.status = "Terminated" ↔ m.termination_date ≠ none) ∧
    (∀ t, m.termination_date = some t → m.enrollment_date < t) ∧
    (0 ≤ m.dependent_count ∧ m.dependent_count ≤ 4) ∧
    (m.member_type ≠ "Employee" → m.dependent_count = 0) ∧
    (∃ e ∈ employers, e.employer_group_id = m.employer_group_id) ∧
    (∃ p2 ∈ plans, p2.plan_type_id = m.plan_type_id) := by
  unfold membersOf at hm
  cases hgen : generate_members n employers plans now g with
  | none => rw [hgen] at hm; simp [Option.elim] at hm
  | some p =>
    rw [hgen] at hm
    simp only [Option.elim] at hm
    simp only [generate_members] at hgen
    obtain ⟨i, g2, g3, _, hrow⟩ :=
      mapStateO_mem (by rw [hgen, Prod.mk.eta]) m hm
    have hs := genMemberRow_spec hrow
    exact ⟨hs.1, hs.2.1, hs.2.2.1, hs.2.2.2.1, hs.2.2.2.2.1, hs.2.2.2.2.2.1⟩

theorem claimsOf_spec {n : Nat} {members : List Member}
    {providers : List Provider} {icdT : List Icd10Row}
    {stT : List ServiceTypeRow} {now : ℚ} {g : Tapes} {c : Claim}
    (hc : c ∈ claimsOf n members providers icdT stT now g) :
    (∃ m, m ∈ members ∧ c.member_id = m.member_id ∧
      c.claimant_number = m.claimant_number ∧
      c.claimant_number2 = m.claimant_number ∧
      m.enrollment_date ≤ c.service_date ∧
      ((c.service_date : ℤ) : ℚ) < enrollmentEnd m now) ∧
    (∃ p, p ∈ providers ∧ p.provider_id = c.provider_id) ∧
    c.total = c.medical + c.rx ∧
    (ValidTape g.py → stOk stT →
      (c.service_type = "Pharmacy" → c.medical = 0 ∧ 0 < c.rx) ∧
      (c.service_type ≠ "Pharmacy" → c.rx = 0 ∧ 0 < c.medical)) := by
  unfold claimsOf at hc
  cases hgen : generate_claims n members providers icdT stT now g with
  | none => rw [hgen] at hc; simp [Option.elim] at hc
  | some p =>
    rw [hgen] at hc
    simp only [Option.elim] at hc
    simp only [generate_claims] at hgen
    obtain ⟨i, g2, g3, _, hrow, hpy⟩ :=
      mapStateO_mem_py (fun a ga b gb hb => genClaimRow_py hb)
        (by rw [hgen, Prod.mk.eta]) c hc
    have hs := genClaimRow_spec hrow
    refine ⟨hs.1, hs.2.1, hs.2.2.1, ?_⟩
    intro hv hst
    exact hs.2.2.2 (by rw [hpy]; exact hv) hst

/-! ## The specification claims -/

/-- C3: every claim produced by `generate_claims` has its service date
inside the enrollment window of the referenced member
`[enrollment_date, termination_date or generation time]`. -/
theorem C3_service_date_in_window (n : Nat) (members : List Member)
    (providers : List Provider) (icdT : List Icd10Row)
    (stT : List ServiceTypeRow) (now : ℚ) (g : Tapes) (c : Claim)
    (hc : c ∈ claimsOf n members providers icdT stT now g) :
    svcInWindow members now c := by
  obtain ⟨m, hm, h1, _, _, h4, h5⟩ := (claimsOf_spec hc).1
  exact ⟨m, hm, h1, h4, le_of_lt h5⟩

/-- C3 witness: the single claim of a one-member, one-claim run. -/
theorem C3_witness :
    svcInWindow [mA] 20500
      ((claimsOf 1 [mA] [prov1] [] [stRow1] 20500 tape0).head!) :=
  C3_service_date_in_window 1 [mA] [prov1] [] [stRow1] 20500 tape0 _
    (List.head!_mem_self (by with_unfolding_all decide))

/-- C4: every generated claim stores `Total = Medical + Rx` on the
2-decimal rounded values, and exactly one of `Medical`, `Rx` is zero, the
zero one selected by the `Pharmacy` service type. -/
theorem C4_cost_consistency (n : Nat) (members : List Member)
    (providers : List Provider) (icdT : List Icd10Row)
    (stT : List ServiceTypeRow) (now : ℚ) (g : Tapes)
    (hv : ValidTape g.py) (hst : stOk stT) (c : Claim)
    (hc : c ∈ claimsOf n members providers icdT stT now g) : costOk c := by
  obtain ⟨-, -, htot, hcost⟩ := claimsOf_spec hc
  obtain ⟨hph, hnph⟩ := hcost hv hst
  refine ⟨htot, fun h => ?_, fun h => ?_⟩
  · obtain ⟨h1, h2⟩ := hph h
    exact ⟨h1, ne_of_gt h2⟩
  · obtain ⟨h1, h2⟩ := hnph h
    exact ⟨h1, ne_of_gt h2⟩

/-- C4 witness: the single claim of a one-member, one-claim run on the
all-zero tape. -/
theorem C4_witness :
    costOk ((claimsOf 1 [mA] [prov1] [] [stRow1] 20500 tape0).head!) :=
  C4_cost_consistency 1 [mA] [prov1] [] [stRow1] 20500 tape0
    (fun _ => by simp [tape0]) (by unfold stOk; decide) _
    (List.head!_mem_self (by with_unfolding_all decide))

/-- C5: the employer and plan foreign keys of every member row, and the
provider and member foreign keys (with matching claimant number) of every
claim row,
reference existing rows of the corresponding tables. -/
theorem C5_foreign_keys :
    (∀ (n : Nat) (employers : List EmployerRow) (plans : List PlanTypeRow)
      (now : ℚ) (g : Tapes) (m : Member),
      m ∈ membersOf n employers plans now g → fkMember employers plans m) ∧
    (∀ (n : Nat) (members : List Member) (providers : List Provider)
      (icdT : List Icd10Row) (stT : List ServiceTypeRow) (now : ℚ)
      (g : Tapes) (c : Claim),
      c ∈ claimsOf n members providers icdT stT now g →
      fkClaim members providers c) := by
  constructor
  · intro n employers plans now g m hm
    obtain ⟨-, -, -, -, he, hp⟩ := membersOf_spec hm
    exact ⟨he, hp⟩
  · intro n members providers icdT stT now g c hc
    obtain ⟨⟨m, hm, h1, h2, h3, -⟩, hp, -⟩ := claimsOf_spec hc
    exact ⟨hp, m, hm, h1.symm, h2.symm, by rw [h3, h2]⟩

/-- C5 witness: both halves at one-row tables. -/
theorem C5_witness :
    fkMember [emp1] PLAN_TYPES_TABLE
      ((membersOf 1 [emp1] PLAN_TYPES_TABLE 20500 tape0).head!) ∧
    fkClaim [mA] [prov1]
      ((claimsOf 1 [mA] [prov1] [] [stRow1] 20500 tape0).head!) :=
  ⟨C5_foreign_keys.1 1 [emp1] PLAN_TYPES_TABLE 20500 tape0 _
      (List.head!_mem_self (by with_unfolding_all decide)),
    C5_foreign_keys.2 1 [mA] [prov1] [] [stRow1] 20500 tape0 _
      (List.head!_mem_self (by with_unfolding_all decide))⟩

/-- C8: a member is `Terminated` exactly when it has a termination date,
and a termination date is strictly after the enrollment date. -/
theorem C8_status_termination (n : Nat) (employers : List EmployerRow)
    (plans : List PlanTypeRow) (now : ℚ) (g : Tapes) (m : Member)
    (hm : m ∈ membersOf n employers plans now g) : memberStatusOk m := by
  obtain ⟨h1, h2, -⟩ := membersOf_spec hm
  exact ⟨h1, h2⟩

/-- C8 witness: the single member of a one-member run. -/
theorem C8_witness :
    memberStatusOk ((membersOf 1 [emp1] PLAN_TYPES_TABLE 20500 tape0).head!) :=
  C8_status_termination 1 [emp1] PLAN_TYPES_TABLE 20500 tape0 _
    (List.head!_mem_self (by with_unfolding_all decide))

/-- C10: the dependent count of every member lies in `[0, 4]` and is zero
whenever the member type is not `Employee`. -/
theorem C10_dependent_count (n : Nat) (employers : List EmployerRow)
    (plans : List PlanTypeRow) (now : ℚ) (g : Tapes) (m : Member)
    (hm : m ∈ membersOf n employers plans now g) : depOk m := by
  obtain ⟨-, -, h3, h4, -⟩ := membersOf_spec hm
  exact ⟨h3, h4⟩

/-- C10 witness: the single member of a one-member run. -/
theorem C10_witness :
    depOk ((membersOf 1 [emp1] PLAN_TYPES_TABLE 20500 tape0).head!) :=
  C10_dependent_count 1 [emp1] PLAN_TYPES_TABLE 20500 tape0 _
    (List.head!_mem_self (by with_unfolding_all decide))

/-- C9: `generate_date_range` succeeds whenever the end bound is at least a
whole day after the start, returning a date in `[start, end)`; in
particular the drawn service date of a claim is strictly below the
termination-date-or-now bound, so it never equals it. -/
theorem C9_date_range_total_and_strict :
    (∀ (s e : ℚ) (g : Tapes), s + 1 ≤ e →
      (generate_date_range s e g).elim False (fun p => s ≤ p.1 ∧ p.1 < e)) ∧
    (∀ (now : ℚ) (m : Member) (g : Tapes) (p : ℚ × Tapes),
      claimServiceDate now m g = some p → p.1 < enrollmentEnd m now) := by
  constructor
  · intro s e g h
    exact generate_date_range_total g h
  · intro now m g p hp
    exact (generate_date_range_bounds hp).2

/-- C9 witness: both halves at concrete inputs. -/
theorem C9_witness :
    ((generate_date_range 0 1 tape0).elim False
      (fun p => 0 ≤ p.1 ∧ p.1 < 1)) ∧
    ((claimServiceDate 20500 mA tape0).getD (0, tape0)).1 <
      enrollmentEnd mA 20500 :=
  ⟨C9_date_range_total_and_strict.1 0 1 tape0 (by norm_num),
    C9_date_range_total_and_strict.2 20500 mA tape0 _
      (by with_unfolding_all rfl)⟩

/-- C6 (amended): in each budget row, `stop_loss_reimb` is the 2-decimal
rounding of 90% of the excess of the monthly (unrounded) medical claims
sum over 500000 when that sum exceeds 500000, and 0 otherwise; the field
`medical_claims` is the rounding of the same sum. -/
theorem C6_stop_loss (monthsN : Nat) (now : ℚ) (cs : List Claim)
    (ms : List Member) (g : Tapes) (r : BudgetRow)
    (hr : r ∈ (generate_budget_data monthsN now cs ms g).1) :
    r.medical_claims = round2 (medSum cs r.month (fracOf now)) ∧
    r.stop_loss_reimb = round2 (if 500000 < medSum cs r.month (fracOf now)
      then (medSum cs r.month (fracOf now) - 500000) * (9/10) else 0) := by
  unfold generate_budget_data at hr
  obtain ⟨μ, g1, hμ, hreq⟩ := mapState_mem r hr
  subst hreq
  dsimp only [budgetRow]
  refine ⟨rfl, ?_⟩
  congr 1
  split
  · rename_i hgt
    exact max_eq_right (by nlinarith)
  · rfl

/-- C6 witness: the single row of a one-month run over one claim. -/
theorem C6_stop_loss_witness :
    ((generate_budget_data 1 nowC [cB] [] tape0).1.head!).medical_claims =
      round2 (medSum [cB]
        ((generate_budget_data 1 nowC [cB] [] tape0).1.head!).month
        (fracOf nowC)) ∧
    ((generate_budget_data 1 nowC [cB] [] tape0).1.head!).stop_loss_reimb =
      round2 (if 500000 < medSum [cB]
          ((generate_budget_data 1 nowC [cB] [] tape0).1.head!).month
          (fracOf nowC)
        then (medSum [cB]
          ((generate_budget_data 1 nowC [cB] [] tape0).1.head!).month
          (fracOf nowC) - 500000) * (9/10) else 0) :=
  C6_stop_loss 1 nowC [cB] [] tape0 _
    (List.head!_mem_self (by with_unfolding_all decide))

/-- C6 counterexample: a month whose medical claims sum to 500000.01 gives
a stored `stop_loss_reimb` of 0.01, not the claimed
`0.9 * (medical_claims - 500000) = 0.009`. -/
theorem C6_counterexample :
    500000 <
      ((generate_budget_data 1 nowC [cB] [] tape0).1.head!).medical_claims ∧
    ((generate_budget_data 1 nowC [cB] [] tape0).1.head!).stop_loss_reimb ≠
      (((generate_budget_data 1 nowC [cB] []
        tape0).1.head!).medical_claims - 500000) * (9/10) := by
  refine ⟨by with_unfolding_all decide, fun h => absurd (congrArg Rat.num h)
    (by with_unfolding_all decide)⟩

/-- C7 (amended): a zero-enrollment month yields `loss_ratio = 0` and
`total_enrollment = 0` with no division error; in general the stored
`loss_ratio` is the 2-decimal rounding of
`(medical + rx sums) / (enrollment * 750) * 100` when enrollment is
positive. -/
theorem C7_loss_ratio (monthsN : Nat) (now : ℚ) (cs : List Claim)
    (ms : List Member) (g : Tapes) (r : BudgetRow)
    (hr : r ∈ (generate_budget_data monthsN now cs ms g).1) :
    r.total_enrollment = (activeMembers ms r.month (fracOf now)).length ∧
    r.loss_ratio = round2
      (if 0 < (activeMembers ms r.month (fracOf now)).length then
        (medSum cs r.month (fracOf now) + rxSum cs r.month (fracOf now)) /
          (((activeMembers ms r.month (fracOf now)).length : ℚ) * 750) * 100
      else 0) ∧
    ((activeMembers ms r.month (fracOf now)).length = 0 →
      r.loss_ratio = 0 ∧ r.total_enrollment = 0) := by
  unfold generate_budget_data at hr
  obtain ⟨μ, g1, hμ, hreq⟩ := mapState_mem r hr
  subst hreq
  dsimp only [budgetRow]
  have hiff : (0 < ((activeMembers ms μ (fracOf now)).length : ℚ) * 750) ↔
      (0 < (activeMembers ms μ (fracOf now)).length) := by
    constructor
    · intro h
      rcases Nat.eq_zero_or_pos (activeMembers ms μ (fracOf now)).length
        with h0 | h0
      · rw [h0] at h
        norm_num at h
      · exact h0
    · intro h
      have h2 : (0 : ℚ) < ((activeMembers ms μ (fracOf now)).length : ℚ) := by
        exact_mod_cast h
      nlinarith
  have hlr : round2 (if 0 < ((activeMembers ms μ (fracOf now)).length : ℚ)
        * 750 then
        (medSum cs μ (fracOf now) + rxSum cs μ (fracOf now)) /
          (((activeMembers ms μ (fracOf now)).length : ℚ) * 750) * 100
      else 0) = round2
      (if 0 < (activeMembers ms μ (fracOf now)).length then
        (medSum cs μ (fracOf now) + rxSum cs μ (fracOf now)) /
          (((activeMembers ms μ (fracOf now)).length : ℚ) * 750) * 100
      else 0) := by
    congr 1
    rw [if_congr hiff rfl rfl]
  refine ⟨rfl, hlr, ?_⟩
  intro h0
  refine ⟨?_, h0⟩
  rw [hlr, if_neg (by rw [h0]; norm_num), round2_zero]

/-- C7 witness: the single row of a one-month run with one active
member. -/
theorem C7_loss_ratio_witness :
    ((generate_budget_data 1 nowC [cC] [mA] tape0).1.head!).total_enrollment =
      (activeMembers [mA]
        ((generate_budget_data 1 nowC [cC] [mA] tape0).1.head!).month
        (fracOf nowC)).length ∧
    ((generate_budget_data 1 nowC [cC] [mA] tape0).1.head!).loss_ratio =
      round2 (if 0 < (activeMembers [mA]
          ((generate_budget_data 1 nowC [cC] [mA] tape0).1.head!).month
          (fracOf nowC)).length then
        (medSum [cC]
            ((generate_budget_data 1 nowC [cC] [mA] tape0).1.head!).month
            (fracOf nowC) +
          rxSum [cC]
            ((generate_budget_data 1 nowC [cC] [mA] tape0).1.head!).month
            (fracOf nowC)) /
          (((activeMembers [mA]
            ((generate_budget_data 1 nowC [cC] [mA] tape0).1.head!).month
            (fracOf nowC)).length : ℚ) * 750) * 100
      else 0) ∧
    ((activeMembers [mA]
        ((generate_budget_data 1 nowC [cC] [mA] tape0).1.head!).month
        (fracOf nowC)).length = 0 →
      ((generate_budget_data 1 nowC [cC] [mA] tape0).1.head!).loss_ratio = 0 ∧
      ((generate_budget_data 1 nowC [cC] [mA]
        tape0).1.head!).total_enrollment = 0) :=
  C7_loss_ratio 1 nowC [cC] [mA] tape0 _
    (List.head!_mem_self (by with_unfolding_all decide))

/-- C7 counterexample: a month with one active member and a one-dollar
claim stores `loss_ratio = 0.13`, not the exact
`(medical_claims + rx_claims) / (total_enrollment * 750) * 100 = 2/15`. -/
theorem C7_counterexample :
    0 < ((generate_budget_data 1 nowC [cC] [mA]
      tape0).1.head!).total_enrollment ∧
    ((generate_budget_data 1 nowC [cC] [mA] tape0).1.head!).loss_ratio ≠
      (((generate_budget_data 1 nowC [cC] [mA]
          tape0).1.head!).medical_claims +
        ((generate_budget_data 1 nowC [cC] [mA] tape0).1.head!).rx_claims) /
        ((((generate_budget_data 1 nowC [cC] [mA]
          tape0).1.head!).total_enrollment : ℚ) * 750) * 100 := by
  refine ⟨by with_unfolding_all decide, fun h => absurd (congrArg Rat.num h)
    (by with_unfolding_all decide)⟩

/-- C2: a claim dated the first day of an in-window month (2024-03-01, in
the 24-month window of a run at `nowC` = 2026-01-15 12:00) is counted in
no budget row at all — the medical claims sum of every row is zero although the
claim carries 100 dollars of medical cost — because the row filter
compares the midnight timestamp of the claim against month boundaries that
carry the time of day of the generation clock. -/
theorem C2_first_of_month_dropped :
    cA.service_date = firstDay 24290 ∧
    ((generate_budget_data MONTHS_OF_DATA nowC [cA] [] tape0).1.map
      (fun r => r.month)) = (List.range 24).map (fun i => 24288 + (i : ℤ)) ∧
    (firstDay 24288 ≤ cA.service_date ∧
      cA.service_date ≤ lastDay (24288 + 23)) ∧
    cA.medical = 100 ∧ cA.service_type ≠ "Pharmacy" ∧
    ((generate_budget_data MONTHS_OF_DATA nowC [cA] [] tape0).1.map
      (fun r => r.medical_claims.num)) = List.replicate 24 0 := by
  refine ⟨by decide, by with_unfolding_all rfl, by decide, rfl,
    by decide, by with_unfolding_all rfl⟩
